import Mathlib

/-!
# RoadWiseAI retrieval-and-ranking engine: a shallow embedding

This file embeds the retrieval core of the RoadWiseAI repository
(`intervener_retrieval.py`, `intervener_explainer.py`) in Lean and proves the
specification's claims about it.

Scores are modelled as rationals (`ℚ`).  The third-party fuzzy matcher
(`rapidfuzz.fuzz.token_set_ratio`) is external library code, not part of the
repository; functions that call it take the matcher as an explicit parameter
`tsr : String → String → ℚ` whose documented contract is a return value in
`[0, 100]`.
-/

namespace RoadWise

/-- An intervention record as parsed by `InterventionKB._parse_interventions`.
Only the fields read by the retrieval engine and the explanation layer are
kept; the remaining parsed metadata (`cost_estimate`, `implementation_time`,
`effectiveness`, `maintenance`, `code`, `problem_description`, `category`,
`rationale`, `assumptions`) is opaque text never read by the functions
embedded here. -/
structure InterventionRecord where
  id : Nat
  issue_keywords : List String
  road_type_tags : List String
  priority : String
  intervention : String
  reference : String
deriving Repr, DecidableEq

/-! ## Tokenizer: `RetrievalEngine.tokenize_query`

The Python code runs `re.findall(r'\b\w+(?:\s+\w+)?\b', query_lower)`:
it scans the lower-cased query left to right and repeatedly matches a maximal
run of word characters, optionally extended by one whitespace gap and one more
word-character run.  We model this by splitting the character list into
maximal runs of a single character class (word / whitespace / other) and then
pairing word runs that are separated by a pure-whitespace gap. -/

/-- Character classes used by the tokenizer regex: `0` for `\w`
(alphanumeric or underscore), `1` for `\s` (whitespace), `2` for anything
else. -/
def charClass (c : Char) : Nat :=
  if c.isAlphanum || c = '_' then 0 else if c.isWhitespace then 1 else 2

/-- Accumulate the current run (class `cl`, reversed characters `acc`) while
scanning the rest of the input. -/
def classRunsAux (cl : Nat) (acc : List Char) : List Char → List (Nat × List Char)
  | [] => [(cl, acc.reverse)]
  | c :: cs =>
    if charClass c = cl then classRunsAux cl (c :: acc) cs
    else (cl, acc.reverse) :: classRunsAux (charClass c) [c] cs

/-- Split a character list into maximal runs of characters of one class,
tagged with that class. -/
def classRuns : List Char → List (Nat × List Char)
  | [] => []
  | c :: cs => classRunsAux (charClass c) [c] cs

/-- Pair the runs the way the regex `\b\w+(?:\s+\w+)?\b` does: a word run
followed by a whitespace gap and another word run becomes one two-word token
(the matched text keeps the gap characters); any other word run becomes a
one-word token; whitespace and punctuation runs are skipped. -/
def pairTokens : List (Nat × List Char) → List (List Char)
  | [] => []
  | (0, r) :: (1, g) :: (0, w2) :: rest => (r ++ g ++ w2) :: pairTokens rest
  | (0, r) :: rest => r :: pairTokens rest
  | (_, _) :: rest => pairTokens rest

/-- Python's `str.lower()` (equivalently `String.toLower`), written at the
character level. -/
def lower (s : String) : String :=
  String.mk (s.data.map Char.toLower)

/-- The fixed stop-word set of `tokenize_query`. -/
def stop_words : List String :=
  ["the", "a", "an", "is", "are", "at", "to", "for", "and", "or", "in", "on", "of"]

/-- `RetrievalEngine.tokenize_query`: lower-case the query, extract word-level
and adjacent-two-word tokens, and drop tokens that are stop words. -/
def tokenize_query (query : String) : List String :=
  ((pairTokens (classRuns (lower query).data)).map String.mk).filter
    (fun t => !(stop_words.contains t))

/-! ## Fuzzy matching and boosts -/

/-- `RetrievalEngine.calculate_fuzzy_score`: the external matcher's
0–100 ratio scaled to `[0, 1]`. -/
def calculate_fuzzy_score (tsr : String → String → ℚ) (query target : String) : ℚ :=
  tsr query target / 100

/-- `RetrievalEngine.ENV_BOOSTS`, in source order. -/
def ENV_BOOSTS : List (String × ℚ) :=
  [("school", 8/100), ("curve", 8/100), ("intersection", 7/100), ("blind", 7/100),
   ("night", 6/100), ("pedestrian", 8/100), ("guardrail", 5/100), ("dark", 6/100)]

/-- `needle == needle` prefix test on character lists. -/
def listPrefixEq : List Char → List Char → Bool
  | [], _ => true
  | _ :: _, [] => false
  | a :: as, b :: bs => a == b && listPrefixEq as bs

/-- Whether `needle` occurs as a contiguous substring of the second list
(Python's `needle in haystack`). -/
def listOccurs (needle : List Char) : List Char → Bool
  | [] => needle.isEmpty
  | c :: cs => listPrefixEq needle (c :: cs) || listOccurs needle cs

/-- Python's `needle in hay` substring test on strings. -/
def strContains (hay needle : String) : Bool :=
  listOccurs needle.data hay.data

/-- `RetrievalEngine.get_environment_boost`: sum the boost of every
environment trigger term occurring in the lower-cased query, capped at
`0.25`. -/
def get_environment_boost (query : String) : ℚ :=
  min (ENV_BOOSTS.foldl (fun b p => if strContains (lower query) p.1 then b + p.2 else b) 0)
    (25/100)

/-- Python truthiness of an optional string argument: `None` and `""` are
falsy. -/
def truthy : Option String → Bool
  | none => false
  | some s => !(s == "")

/-- The road-type boost computed inline in `score_intervention` (lines
129–135): `0.15` when a truthy `road_type` matches a tag case-insensitively,
`0.05` when no truthy `road_type` is given and the record is tagged
`urban`, else `0`. -/
def road_type_boost_of (intervention : InterventionRecord) (road_type : Option String) : ℚ :=
  if truthy road_type
      && (intervention.road_type_tags.map lower).contains (lower (road_type.getD "")) then
    15/100
  else if !truthy road_type && (intervention.road_type_tags.map lower).contains "urban" then
    5/100
  else 0

/-- The environment boost actually used by `score_intervention` (lines
137–140): the text-derived boost, floored at `0.08` when a truthy
`environment` argument is supplied. -/
def env_boost_used (query : String) (environment : Option String) : ℚ :=
  if truthy environment then max (get_environment_boost query) (8/100)
  else get_environment_boost query

/-- `RetrievalEngine.PRIORITY_WEIGHTS` as a partial map. -/
def PRIORITY_WEIGHTS (p : String) : Option ℚ :=
  if p = "High" then some (3/100)
  else if p = "Medium" then some (15/1000)
  else if p = "Low" then some (5/1000)
  else none

/-- `PRIORITY_WEIGHTS.get(priority, 0.01)` as used in `score_intervention`
line 143. -/
def priority_weight_of (priority : String) : ℚ :=
  (PRIORITY_WEIGHTS priority).getD (1/100)

/-- For one query token, the maximum fuzzy score against the record's issue
keywords (the inner loop of `score_intervention`, starting from `0.0`). -/
def best_keyword_score (tsr : String → String → ℚ) (issue_keywords : List String)
    (token : String) : ℚ :=
  issue_keywords.foldl (fun m kw => max m (calculate_fuzzy_score tsr token kw)) 0

/-- The base similarity of `score_intervention` (lines 116–127): the mean of
the per-token best keyword scores, `0.0` when the token list is empty. -/
def base_similarity (tsr : String → String → ℚ) (query : String)
    (intervention : InterventionRecord) : ℚ :=
  if ((tokenize_query query).map (best_keyword_score tsr intervention.issue_keywords)).length = 0
  then 0
  else ((tokenize_query query).map (best_keyword_score tsr intervention.issue_keywords)).sum
        / (((tokenize_query query).map (best_keyword_score tsr intervention.issue_keywords)).length : ℚ)

/-- `RetrievalEngine.score_intervention`: base similarity plus road-type
boost, environment boost and priority weight, capped at `1.0`. -/
def score_intervention (tsr : String → String → ℚ) (query : String)
    (intervention : InterventionRecord) (road_type environment : Option String) : ℚ :=
  min (base_similarity tsr query intervention
        + road_type_boost_of intervention road_type
        + env_boost_used query environment
        + priority_weight_of intervention.priority) 1

/-! ## Ranking -/

/-- `PRIORITY_WEIGHTS.get(priority, 0)` as used in the sort key of
`retrieve_and_rank` line 175.  Note the default weight in the sort key is
`0`, unlike the `0.01` used inside `score_intervention`. -/
def sort_priority_weight (priority : String) : ℚ :=
  (PRIORITY_WEIGHTS priority).getD 0

/-- The sort key of `retrieve_and_rank` line 175:
`(score, PRIORITY_WEIGHTS.get(priority, 0))`. -/
def sortKey (x : InterventionRecord × ℚ) : ℚ × ℚ :=
  (x.2, sort_priority_weight x.1.priority)

/-- The ordering used to model Python's stable `sort(key=..., reverse=True)`:
`a` may precede `b` iff `a`'s key is lexicographically at least `b`'s. -/
def rankGE (a b : InterventionRecord × ℚ) : Bool :=
  decide ((sortKey b).1 < (sortKey a).1
    ∨ ((sortKey b).1 = (sortKey a).1 ∧ (sortKey b).2 ≤ (sortKey a).2))

/-- Python's `xs[:k]` slice: for `k ≥ 0` take the first `k` elements, for
`k < 0` drop the last `-k` (take `len + k`, clamped at `0`). -/
def pyTake (k : Int) (xs : List α) : List α :=
  if 0 ≤ k then xs.take k.toNat else xs.take ((xs.length : Int) + k).toNat

/-- `RetrievalEngine.retrieve_and_rank`: score every knowledge-base record,
sort descending by `(score, priority weight)` (Python's stable sort,
modelled by `mergeSort` with `rankGE`), and truncate with `[:top_k]`.
The Python default for `top_k` is `3`. -/
def retrieve_and_rank (tsr : String → String → ℚ) (kb : List InterventionRecord)
    (query : String) (road_type environment : Option String) (top_k : Int) :
    List (InterventionRecord × ℚ) :=
  pyTake top_k
    ((kb.map (fun i => (i, score_intervention tsr query i road_type environment))).mergeSort rankGE)

/-- The default `threshold` argument of `check_minimum_threshold`. -/
def DEFAULT_THRESHOLD : ℚ := 3/10

/-- `RetrievalEngine.check_minimum_threshold`:
`len(scored_items) > 0 and scored_items[0][1] >= threshold`. -/
def check_minimum_threshold (scored_items : List (InterventionRecord × ℚ))
    (threshold : ℚ) : Bool :=
  match scored_items with
  | [] => false
  | x :: _ => decide (threshold ≤ x.2)

/-! ## Explanation layer -/

/-- `ExplanationLayer._score_to_confidence`. -/
def score_to_confidence (score : ℚ) : String :=
  if 8/10 ≤ score then "Very High"
  else if 6/10 ≤ score then "High"
  else if 4/10 ≤ score then "Medium"
  else "Low"

/-! ## Engine construction -/

/-- The retrieval engine: `RetrievalEngine.__init__` stores the knowledge
base it is given. -/
structure RetrievalEngine where
  kb : List InterventionRecord

/-- `RetrievalEngine.__init__` as a fallible constructor: the Python
initializer contains no validation and never raises, so construction always
succeeds, whatever the knowledge base. -/
def RetrievalEngine.init (kb : List InterventionRecord) : Except String RetrievalEngine :=
  .ok ⟨kb⟩

/-! ## Concrete instances used by witnesses and counterexamples -/

/-- A matcher instance that scores every pair `0`; it satisfies the external
matcher's `[0, 100]` range contract.  It is only used in statements whose
truth value does not depend on the matcher (empty token lists, lengths,
ordering). -/
def tsrZero : String → String → ℚ := fun _ _ => 0

/-- A matcher instance returning `100` exactly on identical strings, `0`
otherwise.  It satisfies the external matcher's `[0, 100]` range contract and
agrees with `rapidfuzz.fuzz.token_set_ratio` on every pair of identical
strings (which score `100`) and on pairs sharing no characters (which score
`0`). -/
def tsrEq : String → String → ℚ := fun a b => if a = b then 100 else 0

/-- A Low-priority record with no road-type tags. -/
def recA : InterventionRecord := ⟨1, ["pothole"], [], "Low", "Fill potholes", "IRC 82"⟩

/-- A High-priority record with no road-type tags. -/
def recB : InterventionRecord := ⟨2, ["crash"], [], "High", "Install guardrail", "IRC 119"⟩

/-- A record whose only issue keyword is the two-word token that
`tokenize_query` extracts from the stop-word query `"the a is"`. -/
def recC5 : InterventionRecord := ⟨3, ["the a"], [], "Low", "Repaint markings", "IRC 35"⟩

/-- A record whose priority label `"Urgent"` is outside
`{High, Medium, Low}`. -/
def recUrgent : InterventionRecord := ⟨4, ["pothole"], [], "Urgent", "Fill potholes", "IRC 82"⟩

/-- `recUrgent` with the priority replaced by `"Low"`. -/
def recLowP : InterventionRecord := ⟨4, ["pothole"], [], "Low", "Fill potholes", "IRC 82"⟩

/-! ## Helper lemmas -/

/-- Folding `max` over a list never goes below the initial accumulator. -/
theorem le_foldl_max {α : Type} (f : α → ℚ) :
    ∀ (l : List α) (m : ℚ), m ≤ l.foldl (fun acc x => max acc (f x)) m
  | [], m => le_refl m
  | x :: l, m => le_trans (le_max_left m (f x)) (le_foldl_max f l (max m (f x)))

/-- The accumulate-if loop of `get_environment_boost` computes the sum of the
weights of the matching entries. -/
theorem foldl_if_add (c : String × ℚ → Bool) :
    ∀ (l : List (String × ℚ)) (b : ℚ),
      l.foldl (fun acc p => if c p then acc + p.2 else acc) b
        = b + ((l.filter c).map Prod.snd).sum
  | [], b => by simp
  | p :: l, b => by
    by_cases h : c p <;>
      simp [List.foldl_cons, h, foldl_if_add c l, add_assoc]

/-- `get_environment_boost` is the capped sum of the weights of the triggers
occurring in the lower-cased query. -/
theorem get_environment_boost_eq (q : String) :
    get_environment_boost q
      = min (((ENV_BOOSTS.filter (fun p => strContains (lower q) p.1)).map Prod.snd).sum)
          (25/100) := by
  simp only [get_environment_boost]
  rw [foldl_if_add]
  norm_num

/-- Every environment trigger weight is nonnegative. -/
theorem ENV_BOOSTS_nonneg : ∀ p ∈ ENV_BOOSTS, (0 : ℚ) ≤ p.2 := by
  intro p hp
  simp only [ENV_BOOSTS, List.mem_cons, List.not_mem_nil, or_false] at hp
  rcases hp with rfl | rfl | rfl | rfl | rfl | rfl | rfl | rfl <;> norm_num

/-- The environment boost is nonnegative. -/
theorem get_environment_boost_nonneg (q : String) : 0 ≤ get_environment_boost q := by
  rw [get_environment_boost_eq]
  refine le_min (List.sum_nonneg ?_) (by norm_num)
  intro x hx
  obtain ⟨p, hp, rfl⟩ := List.mem_map.mp hx
  exact ENV_BOOSTS_nonneg p (List.mem_of_mem_filter hp)

/-- The environment boost actually used in scoring is nonnegative. -/
theorem env_boost_used_nonneg (q : String) (env : Option String) :
    0 ≤ env_boost_used q env := by
  unfold env_boost_used
  split
  · exact le_trans (get_environment_boost_nonneg q) (le_max_left _ _)
  · exact get_environment_boost_nonneg q

/-- The road-type boost is nonnegative. -/
theorem road_type_boost_nonneg (rec : InterventionRecord) (rt : Option String) :
    0 ≤ road_type_boost_of rec rt := by
  unfold road_type_boost_of
  split_ifs <;> norm_num

/-- Every priority weight used in scoring is at least the smallest table
entry `0.005`. -/
theorem priority_weight_of_ge (p : String) : 5/1000 ≤ priority_weight_of p := by
  unfold priority_weight_of PRIORITY_WEIGHTS
  split_ifs <;> norm_num

/-- The priority weight used in scoring is nonnegative. -/
theorem priority_weight_of_nonneg (p : String) : 0 ≤ priority_weight_of p :=
  le_trans (by norm_num) (priority_weight_of_ge p)

/-- The best keyword score of a token is nonnegative (the fold starts at
`0`). -/
theorem best_keyword_score_nonneg (tsr : String → String → ℚ) (kws : List String)
    (t : String) : 0 ≤ best_keyword_score tsr kws t :=
  le_foldl_max (fun kw => calculate_fuzzy_score tsr t kw) kws 0

/-- The base similarity is nonnegative. -/
theorem base_similarity_nonneg (tsr : String → String → ℚ) (q : String)
    (rec : InterventionRecord) : 0 ≤ base_similarity tsr q rec := by
  unfold base_similarity
  split
  · exact le_refl 0
  · refine div_nonneg (List.sum_nonneg ?_) (Nat.cast_nonneg _)
    intro x hx
    obtain ⟨t, _, rfl⟩ := List.mem_map.mp hx
    exact best_keyword_score_nonneg tsr rec.issue_keywords t

/-- The ranking order `rankGE` is total. -/
theorem rankGE_total (a b : InterventionRecord × ℚ) : rankGE a b || rankGE b a := by
  simp only [rankGE, Bool.or_eq_true, decide_eq_true_eq]
  rcases lt_trichotomy (sortKey a).1 (sortKey b).1 with h | h | h
  · exact Or.inr (Or.inl h)
  · rcases le_total (sortKey a).2 (sortKey b).2 with h2 | h2
    · exact Or.inr (Or.inr ⟨h, h2⟩)
    · exact Or.inl (Or.inr ⟨h.symm, h2⟩)
  · exact Or.inl (Or.inl h)

/-- The ranking order `rankGE` is transitive. -/
theorem rankGE_trans (a b c : InterventionRecord × ℚ) :
    rankGE a b → rankGE b c → rankGE a c := by
  simp only [rankGE, decide_eq_true_eq]
  rintro (hab | ⟨hab1, hab2⟩) (hbc | ⟨hbc1, hbc2⟩)
  · exact Or.inl (lt_trans hbc hab)
  · exact Or.inl (lt_of_eq_of_lt hbc1 hab)
  · exact Or.inl (lt_of_lt_of_eq hbc hab1)
  · exact Or.inr ⟨hbc1.trans hab1, le_trans hbc2 hab2⟩

/-- A Python slice `xs[:k]` is a sublist of `xs`. -/
theorem pyTake_sublist (k : Int) {α : Type} (xs : List α) : (pyTake k xs).Sublist xs := by
  unfold pyTake
  split
  · exact List.take_sublist _ _
  · exact List.take_sublist _ _

/-- `rankGE a b` yields the ordering properties the spec states for the
ranked list. -/
theorem rankGE_elim (a b : InterventionRecord × ℚ) (h : rankGE a b) :
    b.2 ≤ a.2
      ∧ (a.2 = b.2 → sort_priority_weight b.1.priority ≤ sort_priority_weight a.1.priority) := by
  simp only [rankGE, decide_eq_true_eq, sortKey] at h
  rcases h with h | ⟨h1, h2⟩
  · exact ⟨le_of_lt h, fun he => absurd (he ▸ h) (lt_irrefl _)⟩
  · exact ⟨le_of_eq h1, fun _ => h2⟩

/-- The composite score is bounded below by the smallest priority weight. -/
theorem score_intervention_ge (tsr : String → String → ℚ) (q : String)
    (rec : InterventionRecord) (rt env : Option String) :
    5/1000 ≤ score_intervention tsr q rec rt env := by
  unfold score_intervention
  refine le_min ?_ (by norm_num)
  have h1 := base_similarity_nonneg tsr q rec
  have h2 := road_type_boost_nonneg rec rt
  have h3 := env_boost_used_nonneg q env
  have h4 := priority_weight_of_ge rec.priority
  linarith

/-- A query with no surviving tokens has base similarity `0`. -/
theorem base_similarity_of_empty (tsr : String → String → ℚ) (q : String)
    (rec : InterventionRecord) (h : tokenize_query q = []) :
    base_similarity tsr q rec = 0 := by
  simp [base_similarity, h]

/-- A query with no surviving tokens is scored from the boosts and priority
weight alone. -/
theorem score_of_empty_tokens (tsr : String → String → ℚ) (q : String)
    (rec : InterventionRecord) (rt env : Option String) (h : tokenize_query q = []) :
    score_intervention tsr q rec rt env
      = min (road_type_boost_of rec rt + env_boost_used q env
          + priority_weight_of rec.priority) 1 := by
  unfold score_intervention
  rw [base_similarity_of_empty tsr q rec h, zero_add]

/-- No environment trigger term occurs in `"the"`. -/
theorem geb_the : get_environment_boost "the" = 0 := by
  have hf : ENV_BOOSTS.filter (fun p => strContains (lower "the") p.1) = [] := by decide
  rw [get_environment_boost_eq, hf]
  simp only [List.map_nil, List.sum_nil]
  rw [min_eq_left (by norm_num)]

/-- Ranking a single-record knowledge base yields that record with its
score. -/
theorem retrieve_single :
    retrieve_and_rank tsrZero [recA] "the" none none 3
      = [(recA, score_intervention tsrZero "the" recA none none)] := by
  simp [retrieve_and_rank, pyTake]

/-! ## Claims -/

/-- C1: for every query, record, road_type and environment,
`score_intervention` returns
`min(base_similarity + road_type_boost + environment_boost + priority_weight, 1.0)`,
so the composite score always lies in `[0.0, 1.0]` no matter how many boosts
stack. -/
theorem C1_score_capped_sum_bounded (tsr : String → String → ℚ) (q : String)
    (rec : InterventionRecord) (rt env : Option String) :
    score_intervention tsr q rec rt env
        = min (base_similarity tsr q rec + road_type_boost_of rec rt
            + env_boost_used q env + priority_weight_of rec.priority) 1
      ∧ 0 ≤ score_intervention tsr q rec rt env
      ∧ score_intervention tsr q rec rt env ≤ 1 := by
  refine ⟨rfl, le_trans (by norm_num) (score_intervention_ge tsr q rec rt env), ?_⟩
  unfold score_intervention
  exact min_le_right _ _

/-- C2: for every query and knowledge base, the sequence returned by
`retrieve_and_rank` has non-increasing scores by position, entries with equal
scores are ordered by descending priority weight, and when the sequence is
non-empty its first entry has the maximum score. -/
theorem C2_ranking_order (tsr : String → String → ℚ) (kb : List InterventionRecord)
    (q : String) (rt env : Option String) (k : Int) :
    (retrieve_and_rank tsr kb q rt env k).Pairwise
        (fun a b => b.2 ≤ a.2
          ∧ (a.2 = b.2 → sort_priority_weight b.1.priority ≤ sort_priority_weight a.1.priority))
      ∧ ∀ a, (retrieve_and_rank tsr kb q rt env k).head? = some a →
          ∀ x ∈ retrieve_and_rank tsr kb q rt env k, x.2 ≤ a.2 := by
  have hsorted :
      ((kb.map fun i => (i, score_intervention tsr q i rt env)).mergeSort rankGE).Pairwise
        (fun a b => rankGE a b) :=
    List.sorted_mergeSort rankGE_trans rankGE_total _
  have hp : (retrieve_and_rank tsr kb q rt env k).Pairwise
      (fun a b => b.2 ≤ a.2
        ∧ (a.2 = b.2 → sort_priority_weight b.1.priority ≤ sort_priority_weight a.1.priority)) :=
    List.Pairwise.sublist (pyTake_sublist k _) (hsorted.imp (fun h => rankGE_elim _ _ h))
  refine ⟨hp, ?_⟩
  intro a ha x hx
  rcases hout : retrieve_and_rank tsr kb q rt env k with _ | ⟨b, t⟩
  · rw [hout] at ha
    simp at ha
  · rw [hout] at ha hx hp
    simp only [List.head?_cons, Option.some.injEq] at ha
    subst ha
    rcases List.mem_cons.mp hx with rfl | hxt
    · exact le_refl _
    · exact (List.rel_of_pairwise_cons hp hxt).1

/-- C3 counterexample: with a two-record knowledge base and `top_k = -1`
(which is ≤ 0), `retrieve_and_rank` returns one entry, not the empty
sequence the claim requires: Python's `[:top_k]` slice drops elements from
the end for negative `top_k`. -/
theorem C3_counterexample :
    (-1 : Int) ≤ 0
      ∧ (retrieve_and_rank tsrZero [recA, recB] "the" none none (-1)).length ≠ 0 := by
  refine ⟨by norm_num, ?_⟩
  simp [retrieve_and_rank, pyTake]

/-- C3 amended: the list returned by `retrieve_and_rank` with `top_k = k`
has length at most `k` when `k ≥ 0` (and length 0 when `k = 0`), but for
`k < 0` the Python slice `[:k]` keeps all but the last `-k` entries, so the
length is `max(n + k, 0)` for an `n`-record knowledge base, which is `0` only
when `k ≤ -n`. -/
theorem C3_amended_topk_bound (tsr : String → String → ℚ) (kb : List InterventionRecord)
    (q : String) (rt env : Option String) (k : Int) :
    (0 ≤ k → (retrieve_and_rank tsr kb q rt env k).length ≤ k.toNat)
      ∧ (k < 0 → (retrieve_and_rank tsr kb q rt env k).length
          = ((kb.length : Int) + k).toNat) := by
  constructor
  · intro hk
    simp only [retrieve_and_rank, pyTake, if_pos hk, List.length_take,
      List.length_mergeSort, List.length_map]
    exact min_le_left _ _
  · intro hk
    simp only [retrieve_and_rank, pyTake, if_neg (not_le.mpr hk), List.length_take,
      List.length_mergeSort, List.length_map]
    omega

/-- Witness for C3's amended claim at `top_k = 3` and `top_k = -2` over a
two-record knowledge base. -/
theorem C3_amended_topk_bound_witness :
    (retrieve_and_rank tsrZero [recA, recB] "the" none none 3).length ≤ (3 : Int).toNat
      ∧ (retrieve_and_rank tsrZero [recA, recB] "the" none none (-2)).length
          = (((2 : Nat) : Int) + (-2)).toNat :=
  ⟨(C3_amended_topk_bound tsrZero [recA, recB] "the" none none 3).1 (by norm_num),
   (C3_amended_topk_bound tsrZero [recA, recB] "the" none none (-2)).2 (by norm_num)⟩

/-- C4: `check_minimum_threshold ranked threshold` is `True` iff `ranked` is
non-empty and its first entry's score is `≥ threshold`; the default threshold
is `0.3` and the boundary is inclusive (`0.30` passes, `0.29` fails, the
empty list fails). -/
theorem C4_threshold_gate :
    (∀ (scored : List (InterventionRecord × ℚ)) (threshold : ℚ),
        check_minimum_threshold scored threshold = true
          ↔ ∃ x xs, scored = x :: xs ∧ threshold ≤ x.2)
      ∧ DEFAULT_THRESHOLD = 3/10
      ∧ check_minimum_threshold [] DEFAULT_THRESHOLD = false
      ∧ ∀ r : InterventionRecord,
          check_minimum_threshold [(r, 29/100)] DEFAULT_THRESHOLD = false
            ∧ check_minimum_threshold [(r, 30/100)] DEFAULT_THRESHOLD = true := by
  refine ⟨?_, rfl, rfl, ?_⟩
  · intro scored threshold
    cases scored with
    | nil => simp [check_minimum_threshold]
    | cons x xs =>
      simp only [check_minimum_threshold, decide_eq_true_eq]
      constructor
      · intro h
        exact ⟨x, xs, rfl, h⟩
      · rintro ⟨y, ys, heq, h⟩
        cases heq
        exact h
  · intro r
    constructor <;>
      simp only [check_minimum_threshold, DEFAULT_THRESHOLD,
        decide_eq_false_iff_not, decide_eq_true_eq, not_le] <;>
      norm_num

/-- C9: the confidence labeling maps every score to exactly one of four
labels with inclusive lower bounds: `≥ 0.8 → "Very High"`,
`0.6 ≤ s < 0.8 → "High"`, `0.4 ≤ s < 0.6 → "Medium"`, `s < 0.4 → "Low"`;
in particular 0.79 → "High", 0.80 → "Very High", 0.39 → "Low",
0.40 → "Medium". -/
theorem C9_confidence_labels (s : ℚ) :
    ((score_to_confidence s = "Very High" ↔ 8/10 ≤ s)
        ∧ (score_to_confidence s = "High" ↔ 6/10 ≤ s ∧ s < 8/10)
        ∧ (score_to_confidence s = "Medium" ↔ 4/10 ≤ s ∧ s < 6/10)
        ∧ (score_to_confidence s = "Low" ↔ s < 4/10))
      ∧ score_to_confidence (79/100) = "High"
      ∧ score_to_confidence (80/100) = "Very High"
      ∧ score_to_confidence (39/100) = "Low"
      ∧ score_to_confidence (40/100) = "Medium" := by
  constructor
  · unfold score_to_confidence
    split_ifs with h1 h2 h3 <;>
      refine ⟨?_, ?_, ?_, ?_⟩ <;>
      simp_all <;>
      first
      | linarith
      | (intro h; linarith)
  · refine ⟨?_, ?_, ?_, ?_⟩ <;> unfold score_to_confidence <;> norm_num

/-- C10: every composite score is at least `0.005` (the smallest priority
weight is always added and all other components are nonnegative), so for
every `top_k ≥ 0` `retrieve_and_rank` returns exactly
`min(top_k, number of records)` entries: no record is dropped before the
top-k truncation. -/
theorem C10_no_record_dropped (tsr : String → String → ℚ) (q : String)
    (rt env : Option String) (rec : InterventionRecord) (kb : List InterventionRecord)
    (k : Int) :
    5/1000 ≤ score_intervention tsr q rec rt env
      ∧ (0 ≤ k → (retrieve_and_rank tsr kb q rt env k).length = min k.toNat kb.length) := by
  refine ⟨score_intervention_ge tsr q rec rt env, ?_⟩
  intro hk
  simp only [retrieve_and_rank, pyTake, if_pos hk, List.length_take,
    List.length_mergeSort, List.length_map]

/-- Witness for C10 at a concrete matcher, query and two-record knowledge
base with `top_k = 3`. -/
theorem C10_no_record_dropped_witness :
    5/1000 ≤ score_intervention tsrZero "the" recA none none
      ∧ (retrieve_and_rank tsrZero [recA, recB] "the" none none 3).length
          = min (3 : Int).toNat 2 :=
  ⟨(C10_no_record_dropped tsrZero "the" none none recA [recA, recB] 3).1,
   (C10_no_record_dropped tsrZero "the" none none recA [recA, recB] 3).2 (by norm_num)⟩

/-- Witness for C2 over a one-record knowledge base, discharging the
head hypothesis at the concrete ranked list. -/
theorem C2_ranking_order_witness :
    (retrieve_and_rank tsrZero [recA] "the" none none 3).Pairwise
        (fun a b => b.2 ≤ a.2
          ∧ (a.2 = b.2 → sort_priority_weight b.1.priority ≤ sort_priority_weight a.1.priority))
      ∧ ∀ x ∈ retrieve_and_rank tsrZero [recA] "the" none none 3,
          x.2 ≤ (recA, score_intervention tsrZero "the" recA none none).2 :=
  ⟨(C2_ranking_order tsrZero [recA] "the" none none 3).1,
   fun x hx => (C2_ranking_order tsrZero [recA] "the" none none 3).2
     (recA, score_intervention tsrZero "the" recA none none)
     (by rw [retrieve_single]; rfl) x hx⟩

/-- C5 counterexample: the stop-word query `"the a is"` tokenizes to the
two-word token `"the a"` (the regex pairs adjacent words, and `"the a"` is
not in the stop-word set), so a record whose issue keyword equals that token
has base similarity `1`, and its composite score is not the sum of boosts and
priority weight alone.  The matcher instance `tsrEq` agrees with
`token_set_ratio` on the identical pair it is applied to. -/
theorem C5_counterexample :
    tokenize_query "the a is" = ["the a"]
      ∧ base_similarity tsrEq "the a is" recC5 = 1
      ∧ score_intervention tsrEq "the a is" recC5 none none
          ≠ road_type_boost_of recC5 none + env_boost_used "the a is" none
            + priority_weight_of recC5.priority := by
  have htok : tokenize_query "the a is" = ["the a"] := by decide
  have hbs : base_similarity tsrEq "the a is" recC5 = 1 := by
    simp [base_similarity, htok, best_keyword_score, calculate_fuzzy_score, tsrEq, recC5]
  have hf : ENV_BOOSTS.filter (fun p => strContains (lower "the a is") p.1) = [] := by decide
  have hgeb : get_environment_boost "the a is" = 0 := by
    rw [get_environment_boost_eq, hf]
    simp only [List.map_nil, List.sum_nil]
    rw [min_eq_left (by norm_num)]
  have henv : env_boost_used "the a is" none = 0 := by
    simp [env_boost_used, truthy, hgeb]
  have hrt : road_type_boost_of recC5 none = 0 := by
    simp [road_type_boost_of, truthy, recC5]
  have hpw : priority_weight_of recC5.priority = 5/1000 := rfl
  refine ⟨htok, hbs, ?_⟩
  unfold score_intervention
  rw [hbs, henv, hrt, hpw]
  norm_num

/-- C5 amended: a query whose tokenization is empty — a single stop word such
as `"the"`, or stop words separated by punctuation such as `"the, a, is"` —
yields base similarity `0.0` for every record, and the composite score is
the capped sum of road-type boost, environment boost and priority weight.
The claim's example `"the a is"` is not such a query: the tokenizer emits the
two-word token `"the a"`, which survives the stop-word filter, so its base
similarity need not be `0`. -/
theorem C5_amended_stopword_query (tsr : String → String → ℚ) (q : String)
    (rec : InterventionRecord) (rt env : Option String)
    (h : tokenize_query q = []) :
    base_similarity tsr q rec = 0
      ∧ score_intervention tsr q rec rt env
        = min (road_type_boost_of rec rt + env_boost_used q env
            + priority_weight_of rec.priority) 1 :=
  ⟨base_similarity_of_empty tsr q rec h, score_of_empty_tokens tsr q rec rt env h⟩

/-- Witness for C5's amended claim at the single-stop-word query `"the"`. -/
theorem C5_amended_stopword_query_witness :
    base_similarity tsrZero "the" recA = 0
      ∧ score_intervention tsrZero "the" recA none none
        = min (road_type_boost_of recA none + env_boost_used "the" none
            + priority_weight_of recA.priority) 1 :=
  C5_amended_stopword_query tsrZero "the" recA none none (by decide)

/-- C6 counterexample: the record `recUrgent`, whose priority label
`"Urgent"` is outside {High, Medium, Low}, receives the `.get` fallback
weight `0.01`, not the Low-tier weight `0.005`: two otherwise identical
records with priorities `"Urgent"` and `"Low"` get different scores. -/
theorem C6_counterexample :
    recUrgent.priority ∉ ["High", "Medium", "Low"]
      ∧ priority_weight_of recUrgent.priority = 1/100
      ∧ priority_weight_of "Low" = 5/1000
      ∧ score_intervention tsrZero "the" recUrgent none none
          ≠ score_intervention tsrZero "the" recLowP none none := by
  have h1 := score_of_empty_tokens tsrZero "the" recUrgent none none (by decide)
  have h2 := score_of_empty_tokens tsrZero "the" recLowP none none (by decide)
  have hrtU : road_type_boost_of recUrgent none = 0 := by
    simp [road_type_boost_of, truthy, recUrgent]
  have hrtL : road_type_boost_of recLowP none = 0 := by
    simp [road_type_boost_of, truthy, recLowP]
  have henv : env_boost_used "the" none = 0 := by
    simp [env_boost_used, truthy, geb_the]
  have hpwU : priority_weight_of recUrgent.priority = 1/100 := rfl
  have hpwL : priority_weight_of recLowP.priority = 5/1000 := rfl
  refine ⟨by decide, hpwU, rfl, ?_⟩
  rw [h1, h2, hrtU, hrtL, henv, hpwU, hpwL]
  rw [min_eq_left (by norm_num), min_eq_left (by norm_num)]
  norm_num

/-- C6 amended: a record with a priority label outside {High, Medium, Low}
is scored without error — the scoring function is total — but the weight
silently added is the `.get` fallback `0.01` (between the Low tier `0.005`
and the Medium tier `0.015`), not the Low-tier weight. -/
theorem C6_amended_unrecognized_priority (tsr : String → String → ℚ) (q : String)
    (rec : InterventionRecord) (rt env : Option String)
    (h : rec.priority ∉ ["High", "Medium", "Low"]) :
    priority_weight_of rec.priority = 1/100
      ∧ score_intervention tsr q rec rt env
        = min (base_similarity tsr q rec + road_type_boost_of rec rt + env_boost_used q env
            + 1/100) 1 := by
  have hp : priority_weight_of rec.priority = 1/100 := by
    simp only [List.mem_cons, List.not_mem_nil, or_false, not_or] at h
    obtain ⟨h1, h2, h3⟩ := h
    simp [priority_weight_of, PRIORITY_WEIGHTS, h1, h2, h3]
  exact ⟨hp, by unfold score_intervention; rw [hp]⟩

/-- Witness for C6's amended claim at the record `recUrgent`. -/
theorem C6_amended_unrecognized_priority_witness :
    priority_weight_of recUrgent.priority = 1/100
      ∧ score_intervention tsrZero "the" recUrgent none none
        = min (base_similarity tsrZero "the" recUrgent + road_type_boost_of recUrgent none
            + env_boost_used "the" none + 1/100) 1 :=
  C6_amended_unrecognized_priority tsrZero "the" recUrgent none none (by decide)

/-- C7 counterexample: constructing the retrieval engine over a knowledge
base with zero intervention records succeeds — `__init__` performs no
validation — contradicting the claim that construction is rejected.  The
emptiness is only observable at query time, as an empty ranked list. -/
theorem C7_counterexample :
    RetrievalEngine.init [] = Except.ok ⟨[]⟩
      ∧ retrieve_and_rank tsrZero [] "the" none none 3 = [] := by
  refine ⟨rfl, ?_⟩
  simp [retrieve_and_rank, pyTake]

/-- C7 amended: the engine constructor accepts any knowledge base, including
one with zero records — there is no fail-fast check.  An empty knowledge
base surfaces only at query time: every `retrieve_and_rank` call returns the
empty list, and the minimum-threshold gate returns `False`. -/
theorem C7_amended_no_fail_fast (kb : List InterventionRecord) (tsr : String → String → ℚ)
    (q : String) (rt env : Option String) (k : Int) :
    RetrievalEngine.init kb = Except.ok ⟨kb⟩
      ∧ (kb = [] → retrieve_and_rank tsr kb q rt env k = []
          ∧ check_minimum_threshold (retrieve_and_rank tsr kb q rt env k) DEFAULT_THRESHOLD
              = false) := by
  refine ⟨rfl, ?_⟩
  rintro rfl
  have h : retrieve_and_rank tsr [] q rt env k = [] := by
    simp [retrieve_and_rank, pyTake]
  exact ⟨h, by rw [h]; rfl⟩

/-- Witness for C7's amended claim at the empty knowledge base. -/
theorem C7_amended_no_fail_fast_witness :
    RetrievalEngine.init ([] : List InterventionRecord) = Except.ok ⟨[]⟩
      ∧ (retrieve_and_rank tsrZero [] "the" none none 3 = []
          ∧ check_minimum_threshold (retrieve_and_rank tsrZero [] "the" none none 3)
              DEFAULT_THRESHOLD = false) :=
  ⟨(C7_amended_no_fail_fast [] tsrZero "the" none none 3).1,
   (C7_amended_no_fail_fast [] tsrZero "the" none none 3).2 rfl⟩

/-- C8: the environment boost is the sum of the weights of trigger terms
found in the lower-cased query, capped at `0.25`; a supplied (truthy)
explicit environment argument floors the boost used in scoring at `0.08`,
so for every query, record and road_type the composite score with an
explicit environment is at least the score of the same call without one. -/
theorem C8_environment_floor (tsr : String → String → ℚ) (q : String)
    (rec : InterventionRecord) (rt : Option String) (e : String) (he : e ≠ "") :
    get_environment_boost q
        = min (((ENV_BOOSTS.filter (fun p => strContains (lower q) p.1)).map Prod.snd).sum)
            (25/100)
      ∧ env_boost_used q (some e) = max (get_environment_boost q) (8/100)
      ∧ score_intervention tsr q rec rt none ≤ score_intervention tsr q rec rt (some e) := by
  have ht : truthy (some e) = true := by
    simp [truthy, he]
  refine ⟨get_environment_boost_eq q, by simp [env_boost_used, ht], ?_⟩
  unfold score_intervention
  have henv : env_boost_used q none ≤ env_boost_used q (some e) := by
    simp [env_boost_used, truthy]
    rw [if_neg he]
    exact le_max_left _ _
  exact min_le_min (by linarith [henv]) (le_refl 1)

/-- Witness for C8 at the query `"the"` with explicit environment
`"school zone"`. -/
theorem C8_environment_floor_witness :
    (get_environment_boost "the"
        = min (((ENV_BOOSTS.filter (fun p => strContains (lower "the") p.1)).map Prod.snd).sum)
            (25/100))
      ∧ env_boost_used "the" (some "school zone")
          = max (get_environment_boost "the") (8/100)
      ∧ score_intervention tsrZero "the" recA none none
          ≤ score_intervention tsrZero "the" recA none (some "school zone") :=
  C8_environment_floor tsrZero "the" recA none "school zone" (by decide)

end RoadWise
